import Mathlib

/-!
Shallow embedding of the `persistant-vector-db` repository
(`src/vector_service.py`, `src/add_documents.py` and the ingestion helper
exercised by `src/tests/test_add_documents.py`), together with theorems
settling the specification claims about payload validation, metadata
parsing, configuration resolution and error propagation.

Python strings are modelled by Lean `String`; Python `dict[str, str]`
metadata mappings are modelled by insertion-ordered association lists
(`Meta`), with assignment semantics (`insertEntry`) matching CPython's
`dict.__setitem__` (update in place keeps the original position, a new key
is appended).  The collaborator Chroma collection is modelled by an opaque
function `store : StoreCall → Except String Unit`, and each operation also
returns the list of `collection.add` calls it performed, so that "no store
call" and "exactly one store call, no retry" are statable.
-/

set_option autoImplicit false

/-- A metadata mapping (`dict[str, str]` in the Python source), kept in
insertion order. -/
abbrev Meta := List (String × String)

/-- CPython dict assignment `d[k] = v`: if `k` is present the value is
replaced in place, otherwise the pair is appended at the end. -/
def insertEntry (d : Meta) (k v : String) : Meta :=
  if d.any (fun p => p.1 = k) then
    d.map (fun p => if p.1 = k then (k, v) else p)
  else d ++ [(k, v)]

/-- Python `str.strip()` restricted to whitespace (the only form the source
uses): drop whitespace from both ends. -/
def trimChars (cs : List Char) : List Char :=
  ((cs.dropWhile Char.isWhitespace).reverse.dropWhile Char.isWhitespace).reverse

/-- Python `raw.strip()` on a Lean `String`. -/
def pyStrip (s : String) : String := ⟨trimChars s.data⟩

/-- Python `str.split(sep)` for a one-character separator: keeps empty
segments, and the empty string yields `[""]`, exactly as in CPython. -/
def splitOnChar (c : Char) : List Char → List (List Char)
  | [] => [[]]
  | x :: rest =>
    let r := splitOnChar c rest
    if x = c then [] :: r
    else
      match r with
      | [] => [[x]]
      | y :: ys => (x :: y) :: ys

/-- Python `raw.split(",")` from `_parse_metadata`. -/
def pySplitComma (s : String) : List String :=
  (splitOnChar ',' s.data).map (fun cs => ⟨cs⟩)

/-- Locate the first `'='` in a character list, returning the characters
before it and after it; `none` when no `'='` occurs. -/
def breakAtEq : List Char → Option (List Char × List Char)
  | [] => none
  | c :: rest =>
    if c = '=' then some ([], rest)
    else
      match breakAtEq rest with
      | some (a, b) => some (c :: a, b)
      | none => none

/-- Python `item.partition("=")` projected to the `(before, after)` pair:
splitting at the first `'='`; when no `'='` occurs the whole string is the
`before` part and `after` is empty, as `partition` returns
`(item, "", "")`. -/
def pySplitFirstEq (s : String) : String × String :=
  match breakAtEq s.data with
  | some (a, b) => (⟨a⟩, ⟨b⟩)
  | none => (s, "")

/-- Python `raw.startswith("\x7b")` (a one-character needle). -/
def pyStartsWithBrace (s : String) : Bool :=
  match s.data with
  | [] => false
  | c :: _ => c = '\x7b'

/-- One iteration of the `for item in raw.split(",")` loop body of
`_parse_metadata` (src/vector_service.py lines 203-207): an empty segment
is skipped (`if not item: continue`); otherwise the segment is split at its
first `'='` and the stripped key is assigned the stripped value. -/
def parseKVStep (d : Meta) (item : String) : Meta :=
  if item = "" then d
  else
    let p := pySplitFirstEq item
    insertEntry d (pyStrip p.1) (pyStrip p.2)

/-- The `key=value` branch of `_parse_metadata`: split on commas and fold
the loop body over the segments, starting from an empty dict. -/
def parseKV (raw : String) : Meta :=
  (pySplitComma raw).foldl parseKVStep []

/-- Drop leading JSON whitespace. -/
def skipWs : List Char → List Char
  | [] => []
  | c :: rest => if c.isWhitespace then skipWs rest else c :: rest

/-- Scan the body of a JSON string literal up to its closing quote (the
escape-free fragment; the metadata examples in the source use no escapes). -/
def scanJString : List Char → List Char → Option (String × List Char)
  | [], _ => none
  | c :: rest, acc =>
    if c = '"' then some (⟨acc.reverse⟩, rest)
    else scanJString rest (c :: acc)

/-- Parse one JSON string literal after optional whitespace. -/
def parseJString (cs : List Char) : Option (String × List Char) :=
  match skipWs cs with
  | '"' :: rest => scanJString rest []
  | _ => none

/-- Parse the members of a JSON object (`"k" : "v"` pairs separated by
commas, ending at `\x7d`), accumulating with dict-assignment semantics.
Fuel-based recursion; the fuel is an upper bound on the member count. -/
def parseJMembers : Nat → List Char → Meta → Option (Meta × List Char)
  | 0, _, _ => none
  | fuel + 1, cs, acc =>
    match parseJString cs with
    | none => none
    | some (k, rest) =>
      match skipWs rest with
      | ':' :: rest2 =>
        match parseJString rest2 with
        | none => none
        | some (v, rest3) =>
          let acc2 := insertEntry acc k v
          match skipWs rest3 with
          | ',' :: rest4 => parseJMembers fuel rest4 acc2
          | '\x7d' :: rest5 => some (acc2, rest5)
          | _ => none
      | _ => none

/-- Model of the external collaborator `json.loads` (Python standard
library), restricted to the fragment the metadata path exercises: a flat
JSON object with string keys and string values and no escape sequences.
Returns `none` where `json.loads` raises `JSONDecodeError` on this
fragment. -/
def jsonLoadsObj (s : String) : Option Meta :=
  match skipWs s.data with
  | '\x7b' :: rest =>
    (match skipWs rest with
     | '\x7d' :: rest2 => if (skipWs rest2).isEmpty then some [] else none
     | _ =>
       match parseJMembers (s.length + 1) rest [] with
       | some (d, rest2) => if (skipWs rest2).isEmpty then some d else none
       | none => none)
  | _ => none

/-- The call `json.loads(raw)` as used by `_parse_metadata`: a parse failure is the
propagated `JSONDecodeError`. -/
def jsonLoadsMeta (s : String) : Except String Meta :=
  match jsonLoadsObj s with
  | some d => .ok d
  | none => .error "json.JSONDecodeError"

/-- The body of the `for raw in metadata_args` loop of `_parse_metadata`
(src/vector_service.py lines 194-208): strip the raw argument; an empty
result contributes an empty dict; a result starting with `\x7b` is handed
to `json.loads`; otherwise the `key=value` branch runs. -/
def parseMetadataOne (rawArg : String) : Except String Meta :=
  let raw := pyStrip rawArg
  if raw = "" then .ok []
  else if pyStartsWithBrace raw then jsonLoadsMeta raw
  else .ok (parseKV raw)

/-- Function `_parse_metadata` (src/vector_service.py lines 192-209):
each argument is parsed in order; a `JSONDecodeError` from any argument
propagates. -/
def parseMetadata (args : List String) : Except String (List Meta) :=
  args.mapM parseMetadataOne

/-- Sum of the character ordinals of a text,
`sum(ord(ch) for ch in text)`. -/
def sumOrd (text : String) : Nat :=
  text.data.foldl (fun acc ch => acc + ch.toNat) 0

/-- Method `SimpleEmbeddingFunction.__call__` (src/vector_service.py lines 59-65):
the loop appends, for each text, the vector `[len(text), checksum]` with
`checksum = sum(ord(ch) for ch in text) % 997`.  Both components are
non-negative integers converted exactly by Python `float`, so they are
modelled by `Nat`. -/
def simpleEmbeddingCall (texts : List String) : List (Nat × Nat) :=
  texts.foldl (fun vectors text =>
    vectors ++ [(text.length, sumOrd text % 997)]) []

/-- Default constants (src/vector_service.py lines 44-46). -/
def DEFAULT_PERSIST_DIRECTORY : String := "db"

/-- Default collection name (src/vector_service.py line 45). -/
def DEFAULT_COLLECTION_NAME : String := "lake"

/-- Default embedding backend (src/vector_service.py line 46). -/
def DEFAULT_EMBEDDING_BACKEND : String := "openai"

/-- The `VectorConfig` dataclass (src/vector_service.py lines 68-72). -/
structure VectorConfig where
  persist_directory : String
  collection_name : String
  embedding_backend : String
deriving DecidableEq, Repr

/-- A process environment: maps a variable name to its value when set.
A variable set to the empty string is set (`os.getenv` returns `""`). -/
abbrev Env := String → Option String

/-- Python `explicit or fallback` where `explicit : Optional[str]`: both
`None` and the empty string are falsy and select the fallback. -/
def pyOrElse (explicit : Option String) (fallback : String) : String :=
  match explicit with
  | none => fallback
  | some s => if s = "" then fallback else s

/-- Python `os.getenv(name, default)`. -/
def getenvD (env : Env) (name default : String) : String :=
  (env name).getD default

/-- Function `get_config` (src/vector_service.py lines 81-97): each option is the
Python `or` of the explicit keyword argument and
`os.getenv(VAR, DEFAULT)`.  `load_environment()` only populates `env`
beforehand and is absorbed into the `env` parameter. -/
def get_config (env : Env)
    (persist_directory collection_name embedding_backend : Option String) :
    VectorConfig :=
  { persist_directory :=
      pyOrElse persist_directory (getenvD env "VECTOR_PERSIST_DIRECTORY" DEFAULT_PERSIST_DIRECTORY)
    collection_name :=
      pyOrElse collection_name (getenvD env "VECTOR_COLLECTION_NAME" DEFAULT_COLLECTION_NAME)
    embedding_backend :=
      pyOrElse embedding_backend (getenvD env "VECTOR_EMBEDDING_BACKEND" DEFAULT_EMBEDDING_BACKEND) }

/-- Python `str.lower()` restricted to ASCII (all backend names in the
source are ASCII). -/
def pyLower (s : String) : String := ⟨s.data.map Char.toLower⟩

/-- The value returned by `_build_embedding_function`: either the OpenAI
embedding function configured with its key and model name, or the local
`SimpleEmbeddingFunction`. -/
inductive EmbeddingFunction where
  | openai (api_key model_name : String)
  | simple
deriving DecidableEq, Repr

/-- Function `_build_embedding_function` (src/vector_service.py lines
107-128): lowercases the backend; `"openai"` requires a truthy
`OPENAI_KEY` (raising `ValueError` otherwise); `"simple"` yields the local
function; anything else raises
`ValueError("Unsupported embedding backend ...")`. -/
def build_embedding_function (env : Env) (config : VectorConfig) :
    Except String EmbeddingFunction :=
  let backend := pyLower config.embedding_backend
  if backend = "openai" then
    match env "OPENAI_KEY" with
    | none =>
      .error "OPENAI_KEY environment variable must be set when using the OpenAI embedding backend."
    | some k =>
      if k = "" then
        .error "OPENAI_KEY environment variable must be set when using the OpenAI embedding backend."
      else
        .ok (.openai k (getenvD env "VECTOR_OPENAI_MODEL" "text-embedding-ada-002"))
  else if backend = "simple" then .ok .simple
  else
    .error ("Unsupported embedding backend \x27" ++ config.embedding_backend ++
      "\x27. Expected \x27openai\x27 or \x27simple\x27.")

/-- One call to the collaborator collection's `add` method: the three
parallel lists handed over. -/
structure StoreCall where
  documents : List String
  metadatas : List Meta
  ids : List String
deriving DecidableEq, Repr

/-- Errors surfaced by the layer: a Python `ValueError` raised by the layer
itself, or a failure raised by the collaborator store and propagated. -/
inductive PyError where
  | valueError (msg : String)
  | collaborator (msg : String)
deriving DecidableEq, Repr

/-- A collaborator collection: its `add` method either succeeds or raises,
identified by an error message. -/
abbrev Store := StoreCall → Except String Unit

/-- Function `add_documents` of vector_service.py (lines 151-164):
raises `ValueError` unless `len(documents) == len(metadatas) == len(ids)`,
then obtains the collection and calls `collection.add` once; any failure of
the collaborator propagates unchanged.  The second component is the list of
`collection.add` calls performed. -/
def add_documents (store : Store)
    (documents : List String) (metadatas : List Meta) (ids : List String) :
    Except PyError Unit × List StoreCall :=
  if documents.length = metadatas.length ∧ metadatas.length = ids.length then
    match store ⟨documents, metadatas, ids⟩ with
    | .ok _ => (.ok (), [⟨documents, metadatas, ids⟩])
    | .error e => (.error (.collaborator e), [⟨documents, metadatas, ids⟩])
  else
    (.error (.valueError "documents, metadatas and ids must have the same length"), [])

/-- Function `validate_payload` (src/add_documents.py lines 76-92), on payloads the
typed embedding already fixes to lists of the right element types (the
`isinstance` guards of lines 79-86 cannot fire on such payloads): raises
`ValueError` unless the three lengths form a one-element set. -/
def validate_payload (documents : List String) (metadatas : List Meta) (ids : List String) :
    Except PyError Unit :=
  if ([documents.length, metadatas.length, ids.length] : List Nat).dedup.length ≠ 1 then
    .error (.valueError "`documents`, `metadatas`, and `ids` must contain the same number of entries.")
  else .ok ()

/-- Function `add_to_openai_collection` (src/add_documents.py lines 94-110): calls
`collection.add` inside `try`; on success it prints a success line, and on
ANY exception it prints the error and returns normally — the failure is
swallowed, not re-raised.  Returns the printed lines and the (always
successful) outcome seen by the caller. -/
def add_to_openai_collection (store : Store)
    (documents : List String) (metadatas : List Meta) (ids : List String) :
    List String × Except PyError Unit :=
  match store ⟨documents, metadatas, ids⟩ with
  | .ok _ => (["Documents added to the collection successfully."], .ok ())
  | .error e => (["Error occurred while adding documents: " ++ e], .ok ())

/-- Modelled from the spec: the `ingest_documents` helper that
`src/tests/test_add_documents.py` imports from `add_documents` is absent
from `src/add_documents.py`.  Per spec section 4.2 and the tests, it
validates the three equal lengths first (a `ValidationError` naming the
fields), then rejects duplicate ids (`len(set(ids)) != len(ids)`) with a
`ValidationError` mentioning duplicate ids, and only then performs the
single `collection.add`, returning the number of documents ingested.  The
second component is the list of store calls performed. -/
def ingest_documents (store : Store)
    (documents : List String) (metadatas : List Meta) (ids : List String) :
    Except PyError Nat × List StoreCall :=
  if documents.length = metadatas.length ∧ metadatas.length = ids.length then
    if ids.dedup.length ≠ ids.length then
      (.error (.valueError "Duplicate ids detected in payload."), [])
    else
      match store ⟨documents, metadatas, ids⟩ with
      | .ok _ => (.ok documents.length, [⟨documents, metadatas, ids⟩])
      | .error e => (.error (.collaborator e), [⟨documents, metadatas, ids⟩])
  else
    (.error (.valueError "documents, metadatas and ids must have the same length"), [])

/-- The metadata defaulting/broadcast step of the CLI ingest branch
(src/vector_service.py lines 266-270), at the level of metadata values:
no metadata yields one empty dict per document; exactly one metadata with
several documents yields one copy per document; otherwise the parsed list
is used as is. -/
def cliBroadcastMetas (documents : List String) (parsed : List Meta) : List Meta :=
  if parsed.length = 0 then List.replicate documents.length []
  else if parsed.length = 1 ∧ documents.length > 1 then
    List.replicate documents.length (parsed.headD [])
  else parsed

/-- The `ingest` branch of `main` (src/vector_service.py lines 263-275):
parse the metadata arguments (a `JSONDecodeError` propagates before any
store interaction), apply the defaulting/broadcast step, check the three
lengths (`ValueError` otherwise), and call `add_documents`; on success the
exit code is `0`. -/
def cliIngest (store : Store)
    (documentArgs idArgs metadataArgs : List String) :
    Except PyError Nat × List StoreCall :=
  match parseMetadata metadataArgs with
  | .error e => (.error (.valueError e), [])
  | .ok parsed =>
    let documents := documentArgs
    let ids := idArgs
    let metadatas := cliBroadcastMetas documents parsed
    if documents.length = ids.length ∧ ids.length = metadatas.length then
      let r := add_documents store documents metadatas ids
      (r.1.map (fun _ => 0), r.2)
    else
      (.error (.valueError "Each document must have a matching id and metadata entry"), [])

/-- The value stored at heap reference `i` (a missing reference reads as an
empty dict; theorems only use in-range references). -/
def heapGet (h : List Meta) (i : Nat) : Meta := h.getD i []

/-- Allocate `n` fresh dict objects, each holding the value `m`, on a heap
of dict objects; returns the new heap and the fresh references in order.
This models a Python list comprehension that builds `n` fresh `dict`
objects (`\x7b\x7d` or `metadatas[0].copy()`). -/
def allocCopies (heap : List Meta) (m : Meta) (n : Nat) : List Meta × List Nat :=
  (heap ++ List.replicate n m, (List.range n).map (fun j => heap.length + j))

/-- The metadata defaulting/broadcast step of the CLI ingest branch
(src/vector_service.py lines 266-270) at the level of object identity:
dict objects live on a heap and the parsed metadata list holds references.
`[\x7b\x7d for _ in documents]` allocates one fresh empty dict per
document; `[metadatas[0].copy() for _ in documents]` allocates one fresh
copy of the single parsed dict per document; otherwise the references are
kept as they are. -/
def normalizeCliMetaRefs (heap : List Meta) (nDocs : Nat) (metaRefs : List Nat) :
    List Meta × List Nat :=
  if metaRefs.length = 0 then allocCopies heap [] nDocs
  else if metaRefs.length = 1 ∧ nDocs > 1 then
    allocCopies heap (heapGet heap (metaRefs.headD 0)) nDocs
  else (heap, metaRefs)

/-- An environment in which only `VECTOR_PERSIST_DIRECTORY` is set. -/
def envPersistOnly : Env := fun name =>
  if name = "VECTOR_PERSIST_DIRECTORY" then some "envdir" else none

/-! ### Helper lemmas -/

/-- A list with a repeated element has a strictly shorter dedup. -/
theorem dedup_length_ne_of_not_nodup {l : List String} (h : ¬ l.Nodup) :
    l.dedup.length ≠ l.length := by
  intro hlen
  exact h (List.dedup_eq_self.mp ((List.dedup_sublist l).eq_of_length hlen))

/-- Python `len(set([a, b, c])) == 1` holds exactly when the three numbers coincide. -/
theorem dedup3_len_eq_one_iff (a b c : Nat) :
    (([a, b, c] : List Nat).dedup.length = 1) ↔ (a = b ∧ b = c) := by
  by_cases hbc : b = c
  · subst hbc
    by_cases hab : a = b
    · subst hab
      simp [List.dedup_cons_of_mem]
    · rw [List.dedup_cons_of_not_mem (by simp [hab]),
        List.dedup_cons_of_mem (by simp)]
      simp [hab]
  · by_cases hab : a = b
    · subst hab
      rw [List.dedup_cons_of_mem (by simp),
        List.dedup_cons_of_not_mem (by simp [hbc])]
      simp [hbc]
    · by_cases hac : a = c
      · subst hac
        rw [List.dedup_cons_of_mem (by simp),
          List.dedup_cons_of_not_mem (by simp [hbc])]
        simp [hbc]
      · rw [List.dedup_cons_of_not_mem (by simp [hab, hac]),
          List.dedup_cons_of_not_mem (by simp [hbc])]
        simp [hab, hbc, hac]

/-- Reading an appended block at an offset past the first part. -/
theorem listGetD_append (l l' : List Meta) (j : Nat) (d : Meta) :
    (l ++ l').getD (l.length + j) d = l'.getD j d := by
  induction l with
  | nil => simp
  | cons x xs ih =>
    have h1 : (x :: xs).length + j = (xs.length + j) + 1 := by
      rw [List.length_cons]; omega
    rw [List.cons_append, h1, List.getD_cons_succ, ih]

/-- Every in-range read of a replicated block yields the replicated value. -/
theorem listGetD_replicate (n j : Nat) (m d : Meta) (h : j < n) :
    (List.replicate n m).getD j d = m := by
  induction n generalizing j with
  | zero => omega
  | succ k ih =>
    cases j with
    | zero => rfl
    | succ i =>
      rw [List.replicate_succ, List.getD_cons_succ]
      exact ih i (by omega)

/-- An append-at-the-end `foldl` is a `map`. -/
theorem foldl_append_singleton (f : String → Nat × Nat) (texts : List String)
    (acc : List (Nat × Nat)) :
    texts.foldl (fun vectors text => vectors ++ [f text]) acc = acc ++ texts.map f := by
  induction texts generalizing acc with
  | nil => simp
  | cons t ts ih => simp [ih]

/-- A character list without `'='` has no split point. -/
theorem breakAtEq_eq_none {cs : List Char} (h : '=' ∉ cs) : breakAtEq cs = none := by
  induction cs with
  | nil => rfl
  | cons c rest ih =>
    have hc : ¬ c = '=' := fun hc => h (hc ▸ List.mem_cons_self c rest)
    simp [breakAtEq, hc, ih (fun hm => h (List.mem_cons_of_mem _ hm))]

/-- When the equal-length validation of `add_documents` passes, exactly one
`collection.add` call is made, whatever its outcome. -/
theorem add_documents_calls (store : Store) (documents : List String)
    (metadatas : List Meta) (ids : List String)
    (h : documents.length = metadatas.length ∧ metadatas.length = ids.length) :
    (add_documents store documents metadatas ids).2 = [⟨documents, metadatas, ids⟩] := by
  unfold add_documents
  rw [if_pos h]
  cases store ⟨documents, metadatas, ids⟩ <;> rfl

/-! ### Claim theorems -/

/-- C4: `_parse_metadata` on a single raw value: an input whose trimmed
form is empty yields the empty mapping; a trimmed input starting with
`\x7b` is handed to `json.loads`; any other input goes through the
comma/first-`=` split; and the three concrete examples of the spec
evaluate as stated. -/
theorem parse_metadata_branch_spec :
    (∀ s : String, pyStrip s = "" → parseMetadataOne s = .ok [])
  ∧ (∀ s : String, pyStartsWithBrace (pyStrip s) = true →
      parseMetadataOne s = jsonLoadsMeta (pyStrip s))
  ∧ (∀ s : String, pyStrip s ≠ "" → pyStartsWithBrace (pyStrip s) = false →
      parseMetadataOne s = .ok (parseKV (pyStrip s)))
  ∧ parseMetadataOne "" = .ok []
  ∧ parseMetadataOne "\x7b\"a\":\"b\"\x7d" = .ok [("a", "b")]
  ∧ parseMetadataOne "a=1,b=2" = .ok [("a", "1"), ("b", "2")] := by
  refine ⟨?_, ?_, ?_, by rfl, by rfl, by rfl⟩
  · intro s h
    simp [parseMetadataOne, h]
  · intro s h
    have hne : pyStrip s ≠ "" := by
      intro he
      rw [he] at h
      exact absurd h (by decide)
    simp [parseMetadataOne, hne, h]
  · intro s hne h
    simp [parseMetadataOne, hne, h]

/-- C4 witness: the empty-branch equation applied at the concrete input
`"  "`, whose trimmed form is empty. -/
theorem parse_metadata_branch_spec_witness :
    parseMetadataOne "  " = .ok [] :=
  parse_metadata_branch_spec.1 "  " (by decide)

/-- C10: in the `key=value` branch, a non-empty segment without `'='` is
assigned the empty string under its trimmed self, an exactly-empty segment
is skipped, and the two concrete examples evaluate as stated. -/
theorem parse_kv_segment_spec :
    (∀ (d : Meta) (item : String), item ≠ "" → '=' ∉ item.data →
        parseKVStep d item = insertEntry d (pyStrip item) "")
  ∧ (∀ d : Meta, parseKVStep d "" = d)
  ∧ parseKV "a,b=2" = [("a", ""), ("b", "2")]
  ∧ parseKV "a=1,,b=2" = [("a", "1"), ("b", "2")] := by
  refine ⟨?_, ?_, by decide, by decide⟩
  · intro d item hne hmem
    simp [parseKVStep, hne, pySplitFirstEq, breakAtEq_eq_none hmem]
    rfl
  · intro d
    rfl

/-- C10 witness: the no-`=` equation applied at the concrete segment
`"a"` on the empty dict. -/
theorem parse_kv_segment_spec_witness :
    parseKVStep [] "a" = insertEntry [] (pyStrip "a") "" :=
  parse_kv_segment_spec.1 [] "a" (by decide) (by decide)

/-- C5: the local embedding maps each text to the pair
`(len(text), sum-of-ordinals mod 997)`; it is a pure function, so repeated
calls agree; and `embed(["abc"])` is `[[3.0, 294.0]]` (both components
exact integers). -/
theorem simple_embedding_spec (texts : List String) :
    simpleEmbeddingCall texts = texts.map (fun t => (t.length, sumOrd t % 997))
  ∧ simpleEmbeddingCall texts = simpleEmbeddingCall texts
  ∧ simpleEmbeddingCall ["abc"] = [(3, 294)] := by
  refine ⟨?_, rfl, by decide⟩
  unfold simpleEmbeddingCall
  rw [foldl_append_singleton (fun t => (t.length, sumOrd t % 997)) texts []]
  rfl

/-- C7 counterexample: the explicit override `""` IS given, yet resolution
returns the environment value, because Python `or` treats the empty string
as falsy.  So "explicit argument > environment variable" fails for a given
empty override. -/
theorem get_config_empty_override_loses :
    (get_config envPersistOnly (some "") none none).persist_directory = "envdir"
    ∧ (some "" : Option String) ≠ none ∧ "envdir" ≠ "" := by
  refine ⟨rfl, by decide, by decide⟩

/-- C7 (amended): each option resolves to the explicit override when one is
given and non-empty; when the override is absent or empty, to the
environment variable if set, else to the default constant (`"db"`,
`"lake"`, `"openai"`). -/
theorem get_config_precedence (env : Env) (p c b : Option String) :
    (∀ v : String, v ≠ "" → p = some v → (get_config env p c b).persist_directory = v)
  ∧ ((p = none ∨ p = some "") →
      (get_config env p c b).persist_directory = getenvD env "VECTOR_PERSIST_DIRECTORY" "db")
  ∧ (∀ v : String, v ≠ "" → c = some v → (get_config env p c b).collection_name = v)
  ∧ ((c = none ∨ c = some "") →
      (get_config env p c b).collection_name = getenvD env "VECTOR_COLLECTION_NAME" "lake")
  ∧ (∀ v : String, v ≠ "" → b = some v → (get_config env p c b).embedding_backend = v)
  ∧ ((b = none ∨ b = some "") →
      (get_config env p c b).embedding_backend = getenvD env "VECTOR_EMBEDDING_BACKEND" "openai") := by
  refine ⟨?_, ?_, ?_, ?_, ?_, ?_⟩
  · intro v hv hp
    subst hp
    simp [get_config, pyOrElse, hv, DEFAULT_PERSIST_DIRECTORY]
  · rintro (hp | hp) <;> subst hp <;>
      simp [get_config, pyOrElse, DEFAULT_PERSIST_DIRECTORY]
  · intro v hv hc
    subst hc
    simp [get_config, pyOrElse, hv, DEFAULT_COLLECTION_NAME]
  · rintro (hc | hc) <;> subst hc <;>
      simp [get_config, pyOrElse, DEFAULT_COLLECTION_NAME]
  · intro v hv hb
    subst hb
    simp [get_config, pyOrElse, hv, DEFAULT_EMBEDDING_BACKEND]
  · rintro (hb | hb) <;> subst hb <;>
      simp [get_config, pyOrElse, DEFAULT_EMBEDDING_BACKEND]

/-- C7 witness: the precedence theorem applied at a concrete explicit
override and the empty environment. -/
theorem get_config_precedence_witness :
    (get_config (fun _ => none) (some "x") none none).persist_directory = "x"
    ∧ (get_config (fun _ => none) (some "x") none none).collection_name =
        getenvD (fun _ => none) "VECTOR_COLLECTION_NAME" "lake" :=
  ⟨(get_config_precedence (fun _ => none) (some "x") none none).1 "x" (by decide) rfl,
   (get_config_precedence (fun _ => none) (some "x") none none).2.2.2.1 (Or.inl rfl)⟩

/-- C8 counterexample: for the unrecognized backend `"bogus"`, resolution
does NOT fail — `get_config` returns a configuration carrying the invalid
backend — and the error is raised only later, by
`_build_embedding_function`, inside an operation. -/
theorem get_config_accepts_bogus_backend :
    get_config (fun _ => none) none none (some "bogus") =
      { persist_directory := "db", collection_name := "lake", embedding_backend := "bogus" }
    ∧ build_embedding_function (fun _ => none)
        { persist_directory := "db", collection_name := "lake", embedding_backend := "bogus" } =
      .error "Unsupported embedding backend \x27bogus\x27. Expected \x27openai\x27 or \x27simple\x27." :=
  ⟨rfl, rfl⟩

/-- C8 (amended): configuration resolution accepts any backend string; the
error for a backend whose lowercased form is neither `"openai"` nor
`"simple"` is raised by `_build_embedding_function` when an operation
builds the embedding function. -/
theorem build_embedding_function_rejects_unknown (env : Env) (config : VectorConfig)
    (h1 : pyLower config.embedding_backend ≠ "openai")
    (h2 : pyLower config.embedding_backend ≠ "simple") :
    build_embedding_function env config =
      .error ("Unsupported embedding backend \x27" ++ config.embedding_backend ++
        "\x27. Expected \x27openai\x27 or \x27simple\x27.") := by
  simp [build_embedding_function, h1, h2]

/-- C8 witness: the amended theorem applied at the concrete backend
`"bogus"` and the empty environment. -/
theorem build_embedding_function_rejects_unknown_witness :
    build_embedding_function (fun _ => none)
      { persist_directory := "db", collection_name := "lake", embedding_backend := "bogus" } =
      .error ("Unsupported embedding backend \x27" ++ "bogus" ++
        "\x27. Expected \x27openai\x27 or \x27simple\x27.") :=
  build_embedding_function_rejects_unknown (fun _ => none)
    { persist_directory := "db", collection_name := "lake", embedding_backend := "bogus" }
    (by decide) (by decide)

/-- C6: for any batch whose three sequences do not all have equal length,
`vector_service.add_documents` raises its `ValueError` (whose message names
`documents`, `metadatas` and `ids`, hence the mismatched field) and makes
no `collection.add` call, and `validate_payload` of `add_documents.py`
raises its corresponding `ValueError` before any store interaction. -/
theorem length_mismatch_rejected (store : Store)
    (documents : List String) (metadatas : List Meta) (ids : List String)
    (hmis : ¬(documents.length = metadatas.length ∧ metadatas.length = ids.length)) :
    add_documents store documents metadatas ids =
      (.error (.valueError "documents, metadatas and ids must have the same length"), [])
    ∧ validate_payload documents metadatas ids =
      .error (.valueError "`documents`, `metadatas`, and `ids` must contain the same number of entries.") := by
  constructor
  · unfold add_documents
    rw [if_neg hmis]
  · unfold validate_payload
    rw [if_pos]
    intro h1
    exact hmis ((dedup3_len_eq_one_iff _ _ _).mp h1)

/-- C6 witness: the theorem applied to a concrete mismatched batch (one
document, no metadata, one id). -/
theorem length_mismatch_rejected_witness :
    add_documents (fun _ => .ok ()) ["a"] [] ["x"] =
      (.error (.valueError "documents, metadatas and ids must have the same length"), [])
    ∧ validate_payload ["a"] [] ["x"] =
      .error (.valueError "`documents`, `metadatas`, and `ids` must contain the same number of entries.") :=
  length_mismatch_rejected (fun _ => .ok ()) ["a"] [] ["x"] (by decide)

/-- C1 (spec-modelled `ingest_documents`): a batch with a repeated id is
rejected with the duplicate-ids `ValidationError` and no store call is made
(so no partial insert); and when the lengths also mismatch, the
equal-length validation fires first, confirming that the duplicate check
executes after it. -/
theorem duplicate_ids_rejected (store : Store)
    (documents : List String) (metadatas : List Meta) (ids : List String)
    (hdup : ¬ ids.Nodup) :
    (documents.length = metadatas.length ∧ metadatas.length = ids.length →
      ingest_documents store documents metadatas ids =
        (.error (.valueError "Duplicate ids detected in payload."), []))
    ∧ (¬(documents.length = metadatas.length ∧ metadatas.length = ids.length) →
      ingest_documents store documents metadatas ids =
        (.error (.valueError "documents, metadatas and ids must have the same length"), [])) := by
  constructor
  · intro hlen
    unfold ingest_documents
    rw [if_pos hlen, if_pos (dedup_length_ne_of_not_nodup hdup)]
  · intro hlen
    unfold ingest_documents
    rw [if_neg hlen]

/-- C1 witness: the theorem applied to the duplicate-id batch of
`tests/test_add_documents.py` (`ids = ["doc-1", "doc-1"]`). -/
theorem duplicate_ids_rejected_witness :
    ingest_documents (fun _ => .ok ())
      ["Doc 1", "Doc 2"] [[("source", "unit")], [("source", "unit")]] ["doc-1", "doc-1"] =
      (.error (.valueError "Duplicate ids detected in payload."), []) :=
  (duplicate_ids_rejected (fun _ => .ok ())
    ["Doc 1", "Doc 2"] [[("source", "unit")], [("source", "unit")]] ["doc-1", "doc-1"]
    (by decide)).1 (by decide)

/-- C2 counterexample: in the legacy entry point, a collaborator failure
(`"boom"`) raised by `collection.add` does NOT propagate:
`add_to_openai_collection` catches it, prints a message, and returns
normally. -/
theorem add_to_openai_collection_swallows :
    add_to_openai_collection (fun _ => .error "boom") ["d"] [[]] ["i"] =
      (["Error occurred while adding documents: boom"], .ok ()) := rfl

/-- C2 (amended): in the `vector_service.add_documents` path a collaborator
failure propagates to the caller unchanged after exactly one store call (no
retry, no recovery); the legacy `add_to_openai_collection` instead catches
the failure, prints it, and returns success. -/
theorem collaborator_error_propagation (store : Store)
    (documents : List String) (metadatas : List Meta) (ids : List String) (e : String)
    (hlen : documents.length = metadatas.length ∧ metadatas.length = ids.length)
    (herr : store ⟨documents, metadatas, ids⟩ = .error e) :
    add_documents store documents metadatas ids =
      (.error (.collaborator e), [⟨documents, metadatas, ids⟩])
    ∧ add_to_openai_collection store documents metadatas ids =
      (["Error occurred while adding documents: " ++ e], .ok ()) := by
  constructor
  · unfold add_documents
    rw [if_pos hlen, herr]
  · unfold add_to_openai_collection
    rw [herr]

/-- C2 witness: the propagation theorem applied to a concrete batch and a
store whose `add` always raises `"boom"`. -/
theorem collaborator_error_propagation_witness :
    add_documents (fun _ => .error "boom") ["d"] [[]] ["i"] =
      (.error (.collaborator "boom"), [⟨["d"], [[]], ["i"]⟩])
    ∧ add_to_openai_collection (fun _ => .error "boom") ["d"] [[]] ["i"] =
      (["Error occurred while adding documents: " ++ "boom"], .ok ()) :=
  collaborator_error_propagation (fun _ => .error "boom") ["d"] [[]] ["i"] "boom"
    (by decide) rfl

/-- A comprehension allocating `n` fresh dicts of value `m` yields `n`
pairwise-distinct references, all fresh (past the old heap), each reading
back the value `m`. -/
theorem allocCopies_spec (heap : List Meta) (m : Meta) (n : Nat) :
    (allocCopies heap m n).2.length = n
    ∧ (allocCopies heap m n).2.Nodup
    ∧ ∀ i ∈ (allocCopies heap m n).2,
        heap.length ≤ i ∧ heapGet (allocCopies heap m n).1 i = m := by
  refine ⟨by simp [allocCopies], ?_, ?_⟩
  · show ((List.range n).map (fun j => heap.length + j)).Nodup
    exact (List.nodup_range n).map (fun x y h => by omega)
  · intro i hi
    simp only [allocCopies, List.mem_map, List.mem_range] at hi
    obtain ⟨j, hj, rfl⟩ := hi
    refine ⟨by omega, ?_⟩
    unfold heapGet allocCopies
    rw [listGetD_append]
    exact listGetD_replicate n j m [] hj

/-- When the metadata arguments parse and the broadcast batch passes the
CLI length check, the CLI ingest branch performs exactly one store call,
carrying the broadcast batch. -/
theorem cliIngest_calls (store : Store) (documentArgs idArgs metadataArgs : List String)
    (parsed : List Meta)
    (hparse : parseMetadata metadataArgs = .ok parsed)
    (hlen : documentArgs.length = idArgs.length ∧
      idArgs.length = (cliBroadcastMetas documentArgs parsed).length) :
    (cliIngest store documentArgs idArgs metadataArgs).2 =
      [⟨documentArgs, cliBroadcastMetas documentArgs parsed, idArgs⟩] := by
  unfold cliIngest
  rw [hparse]
  dsimp only
  rw [if_pos hlen]
  exact add_documents_calls store documentArgs (cliBroadcastMetas documentArgs parsed)
    idArgs ⟨hlen.1.trans hlen.2, hlen.2.symm⟩

/-- C3: when exactly one metadata value is supplied with more than one
document, the CLI path hands the store a batch with one metadata entry per
document, all equal to the supplied mapping; and at the level of object
identity, the copies made by `metadatas[0].copy()` are pairwise-distinct
fresh dict objects (none aliasing the parsed dict), each reading back the
supplied mapping. -/
theorem cli_single_metadata_broadcast (heap : List Meta) (r : Nat) (store : Store)
    (documentArgs idArgs metadataArgs : List String) (m : Meta)
    (hn : documentArgs.length > 1)
    (hid : idArgs.length = documentArgs.length)
    (hr : r < heap.length)
    (hparse : parseMetadata metadataArgs = .ok [m]) :
    (cliIngest store documentArgs idArgs metadataArgs).2 =
        [⟨documentArgs, List.replicate documentArgs.length m, idArgs⟩]
    ∧ (List.replicate documentArgs.length m).length = documentArgs.length
    ∧ (∀ x ∈ List.replicate documentArgs.length m, x = m)
    ∧ (normalizeCliMetaRefs heap documentArgs.length [r]).2.length = documentArgs.length
    ∧ (normalizeCliMetaRefs heap documentArgs.length [r]).2.Nodup
    ∧ ∀ i ∈ (normalizeCliMetaRefs heap documentArgs.length [r]).2,
        heap.length ≤ i ∧ i ≠ r ∧
        heapGet (normalizeCliMetaRefs heap documentArgs.length [r]).1 i = heapGet heap r := by
  have hb : cliBroadcastMetas documentArgs [m] = List.replicate documentArgs.length m := by
    simp [cliBroadcastMetas, hn]
  have hnorm : normalizeCliMetaRefs heap documentArgs.length [r] =
      allocCopies heap (heapGet heap r) documentArgs.length := by
    simp [normalizeCliMetaRefs, hn]
  obtain ⟨ha1, ha2, ha3⟩ := allocCopies_spec heap (heapGet heap r) documentArgs.length
  refine ⟨?_, by simp, by simp [List.eq_of_mem_replicate], ?_, ?_, ?_⟩
  · rw [← hb]
    exact cliIngest_calls store documentArgs idArgs metadataArgs [m] hparse
      ⟨hid.symm, by rw [hb]; simp [hid]⟩
  · rw [hnorm]; exact ha1
  · rw [hnorm]; exact ha2
  · intro i hi
    rw [hnorm] at hi
    obtain ⟨hfresh, hval⟩ := ha3 i hi
    exact ⟨hfresh, by omega, by rw [hnorm]; exact hval⟩

/-- C3 witness: the broadcast theorem at a concrete two-document CLI
invocation with the single metadata argument `"k=v"`. -/
theorem cli_single_metadata_broadcast_witness :
    (cliIngest (fun _ => .ok ()) ["d1", "d2"] ["i1", "i2"] ["k=v"]).2 =
      [⟨["d1", "d2"], List.replicate 2 [("k", "v")], ["i1", "i2"]⟩] :=
  (cli_single_metadata_broadcast [[("k", "v")]] 0 (fun _ => .ok ())
    ["d1", "d2"] ["i1", "i2"] ["k=v"] [("k", "v")]
    (by decide) (by decide) (by decide) (by rfl)).1

/-- C9: with no metadata arguments, the CLI path pairs every document with
an empty mapping (the store call carries one empty dict per document); and
at the level of object identity, `[\x7b\x7d for _ in documents]` allocates
one fresh dict per document, pairwise distinct, each reading back the empty
mapping. -/
theorem cli_no_metadata_defaults (heap : List Meta) (store : Store)
    (documentArgs idArgs : List String)
    (hid : idArgs.length = documentArgs.length) :
    (cliIngest store documentArgs idArgs []).2 =
        [⟨documentArgs, List.replicate documentArgs.length [], idArgs⟩]
    ∧ (List.replicate documentArgs.length ([] : Meta)).length = documentArgs.length
    ∧ (∀ x ∈ List.replicate documentArgs.length ([] : Meta), x = ([] : Meta))
    ∧ (normalizeCliMetaRefs heap documentArgs.length []).2.length = documentArgs.length
    ∧ (normalizeCliMetaRefs heap documentArgs.length []).2.Nodup
    ∧ ∀ i ∈ (normalizeCliMetaRefs heap documentArgs.length []).2,
        heap.length ≤ i ∧
        heapGet (normalizeCliMetaRefs heap documentArgs.length []).1 i = ([] : Meta) := by
  have hb : cliBroadcastMetas documentArgs [] = List.replicate documentArgs.length [] := by
    simp [cliBroadcastMetas]
  have hnorm : normalizeCliMetaRefs heap documentArgs.length [] =
      allocCopies heap [] documentArgs.length := by
    simp [normalizeCliMetaRefs]
  obtain ⟨ha1, ha2, ha3⟩ := allocCopies_spec heap [] documentArgs.length
  refine ⟨?_, by simp, by simp [List.eq_of_mem_replicate], ?_, ?_, ?_⟩
  · rw [← hb]
    exact cliIngest_calls store documentArgs idArgs [] [] rfl
      ⟨hid.symm, by rw [hb]; simp [hid]⟩
  · rw [hnorm]; exact ha1
  · rw [hnorm]; exact ha2
  · intro i hi
    rw [hnorm] at hi
    obtain ⟨hfresh, hval⟩ := ha3 i hi
    exact ⟨hfresh, by rw [hnorm]; exact hval⟩

/-- C9 witness: the defaulting theorem at a concrete two-document CLI
invocation with no metadata arguments. -/
theorem cli_no_metadata_defaults_witness :
    (cliIngest (fun _ => .ok ()) ["d1", "d2"] ["i1", "i2"] []).2 =
      [⟨["d1", "d2"], List.replicate 2 [], ["i1", "i2"]⟩] :=
  (cli_no_metadata_defaults [] (fun _ => .ok ()) ["d1", "d2"] ["i1", "i2"] (by decide)).1
